import Mathlib

/-!
# Verification of the fish-eye-to-partition refraction solver

Shallow embedding of `calc_fish_eye_to_partition.py` over the real numbers.

The script computes, for a submerged observer behind a partition, the
minimum eye-to-partition distance at which a stimulus becomes visible,
first without refraction (similar triangles) and then corrected for
refraction at the water surface via Snell's law.

Modelling conventions:
* Python floats are modelled as real numbers (`ℝ`).
* A Python statement that raises an exception (`ZeroDivisionError` from
  `x / 0.0`, `ValueError` from `math.asin` outside `[-1, 1]`) is modelled
  by an `Except` error value; `PyError` distinguishes the two.
* `print` calls are side effects with no influence on control flow; the
  conditions under which the source prints its WARN / ERROR diagnostics
  are modelled as separate `Prop`-valued definitions so that claims about
  "warn but continue" behaviour can be stated.
* The one piece of cross-call state, `self.input_printed`, is threaded
  explicitly: the solver takes the flag and returns the updated flag.
-/

open scoped Classical

noncomputable section

namespace FishCalc

/-- Exceptions the Python source can raise. -/
inductive PyError where
  | zeroDivision : PyError
  | valueError : PyError
deriving DecidableEq

/-- Return value of `calc_fish_eye_to_partition_no_Snell`:
the pair `(d_p, h_p)` returned at line 79 of the source. -/
structure NoSnellResult where
  d_p : ℝ
  h_p : ℝ
deriving Inhabited

/-- Python's `math.atan2 y x`: the angle of the point `(x, y)` in `(-π, π]`.
Never raises. -/
def atan2 (y x : ℝ) : ℝ :=
  if 0 < x then Real.arctan (y / x)
  else if x < 0 then
    (if 0 ≤ y then Real.arctan (y / x) + Real.pi else Real.arctan (y / x) - Real.pi)
  else if 0 < y then Real.pi / 2
  else if y < 0 then -(Real.pi / 2)
  else 0

/-- `d_b_beta` (source line 53): hypotenuse distance between ball and panel at
angle `beta`, from the hardcoded orthogonal gap `d_b = 0.185`. -/
def d_b_beta (beta : ℝ) : ℝ := 0.185 / Real.cos beta

/-- Condition under which the source prints its yellow WARN about `beta`
being within `1e-6` of `±π/2` (source lines 48-51).  A print only: the
computation continues regardless. -/
def betaWarnCond (beta : ℝ) : Prop :=
  |beta - Real.pi * 0.5| < 1e-6 ∨ |beta + Real.pi * 0.5| < 1e-6

/-- The planar (no-refraction) distance `d_p` (source line 62):
`(h_p * d_b_beta) / (h_b - h_p)` with `h_p = h_p_prime - h_f`,
`h_b = h_b_prime - h_f`. -/
def d_p_noSnell (h_f h_p_prime h_b_prime beta : ℝ) : ℝ :=
  ((h_p_prime - h_f) * d_b_beta beta) / ((h_b_prime - h_f) - (h_p_prime - h_f))

/-- `calc_fish_eye_to_partition_no_Snell` (source lines 41-79).
Raises `ZeroDivisionError` when `cos beta = 0` (line 53) or when the
planar denominator `h_b - h_p` is zero (line 62); otherwise returns
`(d_p, h_p)`.  The WARN print at lines 48-51 does not affect the result. -/
def calc_fish_eye_to_partition_no_Snell (h_f h_p_prime h_b_prime beta : ℝ) :
    Except PyError NoSnellResult :=
  if Real.cos beta = 0 then .error .zeroDivision
  else if (h_b_prime - h_f) - (h_p_prime - h_f) = 0 then .error .zeroDivision
  else .ok ⟨d_p_noSnell h_f h_p_prime h_b_prime beta, h_p_prime - h_f⟩

/-- `theta0` (source line 106): angle from horizontal of the unrefracted
sight ray, `atan2 h_p d_p_1`. -/
def theta0 (h_p d_p_1 : ℝ) : ℝ := atan2 h_p d_p_1

/-- `theta1` (source line 111): incident angle of Snell's law. -/
def theta1 (h_p d_p_1 : ℝ) : ℝ := 0.5 * Real.pi - theta0 h_p d_p_1

/-- The argument handed to `math.asin` at source line 113:
`sin(theta1) / n21`. -/
def sin_refracted (n21 h_p d_p_1 : ℝ) : ℝ := Real.sin (theta1 h_p d_p_1) / n21

/-- `theta2` (source line 113): refraction angle of Snell's law. -/
def theta2 (n21 h_p d_p_1 : ℝ) : ℝ := Real.arcsin (sin_refracted n21 h_p d_p_1)

/-- `d_s` (source line 117): horizontal shift at the water surface,
`h_w * tan(theta2)`. -/
def d_s (n21 h_w h_p d_p_1 : ℝ) : ℝ := h_w * Real.tan (theta2 n21 h_p d_p_1)

/-- `d_p_2_beta` (source line 122): hypotenuse distance with refraction. -/
def d_p_2_beta (n21 h_w h_p d_p_1 : ℝ) : ℝ :=
  d_p_1 - h_w / Real.tan (theta0 h_p d_p_1) + d_s n21 h_w h_p d_p_1

/-- `d_p_2` (source line 125): orthogonal distance with refraction. -/
def d_p_2 (n21 h_w h_p d_p_1 beta : ℝ) : ℝ :=
  d_p_2_beta n21 h_w h_p d_p_1 * Real.sin (0.5 * Real.pi - beta)

/-- Condition under which the source prints its red ERROR about the eye
being out of the water, `h_w <= 0` (source lines 100-103).  A print only:
no exception is raised and the computation continues. -/
def hwErrorCond (h_f h_w_prime : ℝ) : Prop := h_w_prime - h_f ≤ 0

/-- Body of `calc_fish_eye_to_partition` (source lines 91-134), with the
refractive-index ratio `n21` (hardcoded to `1.33` at source line 109) made
an explicit parameter, matching the spec's `refractive_index_ratio`
configuration field.  `input_printed` is the `self.input_printed` flag on
entry; the returned `Bool` is the flag after the call (set to `True` at
source line 129 on every successful call).  Exception order follows the
source: the planar stage first, then the division `sin(theta1) / n21`,
then the `asin` domain check, then the division by `tan(theta0)`. -/
def calc_fish_eye_to_partition_ratio (n21 : ℝ) (input_printed : Bool)
    (h_f h_p_prime h_b_prime h_w_prime beta : ℝ) : Except PyError (ℝ × Bool) :=
  match calc_fish_eye_to_partition_no_Snell h_f h_p_prime h_b_prime beta with
  | .error e => .error e
  | .ok pr =>
    if n21 = 0 then .error .zeroDivision
    else if 1 < |sin_refracted n21 pr.h_p pr.d_p| then .error .valueError
    else if Real.tan (theta0 pr.h_p pr.d_p) = 0 then .error .zeroDivision
    else .ok (d_p_2 n21 (h_w_prime - h_f) pr.h_p pr.d_p beta, true)

/-- `calc_fish_eye_to_partition` (source lines 91-134) with the source's
hardcoded `n21 = 1.33`. -/
def calc_fish_eye_to_partition (input_printed : Bool)
    (h_f h_p_prime h_b_prime h_w_prime beta : ℝ) : Except PyError (ℝ × Bool) :=
  calc_fish_eye_to_partition_ratio 1.33 input_printed
    h_f h_p_prime h_b_prime h_w_prime beta

/-- The returned distance of a successful `calc_fish_eye_to_partition`
call, as a pure function of its inputs. -/
def solve_value (h_f h_p_prime h_b_prime h_w_prime beta : ℝ) : ℝ :=
  d_p_2 1.33 (h_w_prime - h_f) (h_p_prime - h_f)
    (d_p_noSnell h_f h_p_prime h_b_prime beta) beta

/-- The angle sweep of `main` (source lines 167-175): iterate over the
angles in order, appending each returned distance to the result list,
threading the `input_printed` flag through the shared solver object.
An uncaught exception aborts the whole sweep (there is no `try` in the
source). -/
def sweep (input_printed : Bool) (h_f h_p_prime h_b_prime h_w_prime : ℝ) :
    List ℝ → Except PyError (List ℝ × Bool)
  | [] => .ok ([], input_printed)
  | beta :: rest =>
    match calc_fish_eye_to_partition input_printed
        h_f h_p_prime h_b_prime h_w_prime beta with
    | .error e => .error e
    | .ok (v, st) =>
      match sweep st h_f h_p_prime h_b_prime h_w_prime rest with
      | .error e => .error e
      | .ok (l, st2) => .ok (v :: l, st2)

/-! ## Basic evaluation lemmas -/

lemma atan2_of_pos (y x : ℝ) (hx : 0 < x) : atan2 y x = Real.arctan (y / x) :=
  if_pos hx

lemma no_Snell_ok (h_f h_p_prime h_b_prime beta : ℝ)
    (h1 : Real.cos beta ≠ 0)
    (h2 : (h_b_prime - h_f) - (h_p_prime - h_f) ≠ 0) :
    calc_fish_eye_to_partition_no_Snell h_f h_p_prime h_b_prime beta =
      .ok ⟨d_p_noSnell h_f h_p_prime h_b_prime beta, h_p_prime - h_f⟩ := by
  unfold calc_fish_eye_to_partition_no_Snell
  rw [if_neg h1, if_neg h2]

lemma calc_ratio_ok (n21 : ℝ) (s : Bool) (h_f h_p_prime h_b_prime h_w_prime beta : ℝ)
    (h1 : Real.cos beta ≠ 0)
    (h2 : (h_b_prime - h_f) - (h_p_prime - h_f) ≠ 0)
    (h3 : n21 ≠ 0)
    (h4 : ¬ 1 < |sin_refracted n21 (h_p_prime - h_f)
      (d_p_noSnell h_f h_p_prime h_b_prime beta)|)
    (h5 : Real.tan (theta0 (h_p_prime - h_f)
      (d_p_noSnell h_f h_p_prime h_b_prime beta)) ≠ 0) :
    calc_fish_eye_to_partition_ratio n21 s h_f h_p_prime h_b_prime h_w_prime beta =
      .ok (d_p_2 n21 (h_w_prime - h_f) (h_p_prime - h_f)
        (d_p_noSnell h_f h_p_prime h_b_prime beta) beta, true) := by
  unfold calc_fish_eye_to_partition_ratio
  rw [no_Snell_ok h_f h_p_prime h_b_prime beta h1 h2]
  simp only [if_neg h3, if_neg h4, if_neg h5]

/-- With the hardcoded ratio `1.33`, the argument of `math.asin` can never
leave `[-1, 1]`: `|sin θ| ≤ 1 < 1.33`. -/
lemma guard_133 (h_p d_p_1 : ℝ) : ¬ 1 < |sin_refracted 1.33 h_p d_p_1| := by
  rw [not_lt, sin_refracted, abs_div]
  rw [show |(1.33 : ℝ)| = 1.33 by rw [abs_of_pos]; norm_num]
  calc |Real.sin (theta1 h_p d_p_1)| / 1.33
      ≤ 1 / 1.33 := by gcongr; exact Real.abs_sin_le_one _
    _ ≤ 1 := by norm_num

lemma calc_err (s : Bool) (h_f h_p_prime h_b_prime h_w_prime beta : ℝ)
    (e : PyError)
    (h : calc_fish_eye_to_partition_no_Snell h_f h_p_prime h_b_prime beta =
      .error e) :
    calc_fish_eye_to_partition s h_f h_p_prime h_b_prime h_w_prime beta =
      .error e := by
  unfold calc_fish_eye_to_partition calc_fish_eye_to_partition_ratio
  rw [h]

lemma calc_ok (s : Bool) (h_f h_p_prime h_b_prime h_w_prime beta : ℝ)
    (h1 : Real.cos beta ≠ 0)
    (h2 : (h_b_prime - h_f) - (h_p_prime - h_f) ≠ 0)
    (h5 : Real.tan (theta0 (h_p_prime - h_f)
      (d_p_noSnell h_f h_p_prime h_b_prime beta)) ≠ 0) :
    calc_fish_eye_to_partition s h_f h_p_prime h_b_prime h_w_prime beta =
      .ok (solve_value h_f h_p_prime h_b_prime h_w_prime beta, true) := by
  unfold calc_fish_eye_to_partition solve_value
  exact calc_ratio_ok 1.33 s h_f h_p_prime h_b_prime h_w_prime beta h1 h2
    (by norm_num) (guard_133 _ _) h5

/-! ### Evaluation at the small-class scenario config -/

lemma d_p_noSnell_small :
    d_p_noSnell 0.02 0.075 0.20 0 = 0.0814 := by
  unfold d_p_noSnell d_b_beta
  rw [Real.cos_zero]
  norm_num

lemma theta0_small :
    theta0 (0.075 - 0.02) (d_p_noSnell 0.02 0.075 0.20 0) =
      Real.arctan (25 / 37) := by
  unfold theta0
  rw [d_p_noSnell_small, atan2_of_pos _ _ (by norm_num)]
  congr 1
  norm_num

lemma tan_theta0_small :
    Real.tan (theta0 (0.075 - 0.02) (d_p_noSnell 0.02 0.075 0.20 0)) = 25 / 37 := by
  rw [theta0_small, Real.tan_arctan]

/-- The state flag never influences the solver's returned value: the body
of `calc_fish_eye_to_partition_ratio` does not read `input_printed`. -/
lemma calc_state_independent (s s' : Bool)
    (h_f h_p_prime h_b_prime h_w_prime beta : ℝ) :
    calc_fish_eye_to_partition s h_f h_p_prime h_b_prime h_w_prime beta =
      calc_fish_eye_to_partition s' h_f h_p_prime h_b_prime h_w_prime beta := rfl

lemma sweep_fst_state_independent (betas : List ℝ) : ∀ (s s' : Bool)
    (h_f h_p_prime h_b_prime h_w_prime : ℝ),
    (sweep s h_f h_p_prime h_b_prime h_w_prime betas).map Prod.fst =
      (sweep s' h_f h_p_prime h_b_prime h_w_prime betas).map Prod.fst := by
  cases betas with
  | nil => intro s s' h_f h_p_prime h_b_prime h_w_prime; rfl
  | cons b rest =>
    intro s s' h_f h_p_prime h_b_prime h_w_prime
    show (match calc_fish_eye_to_partition s h_f h_p_prime h_b_prime h_w_prime b with
      | Except.error e => Except.error e
      | Except.ok (v, st) =>
        match sweep st h_f h_p_prime h_b_prime h_w_prime rest with
        | Except.error e => Except.error e
        | Except.ok (l, st2) => Except.ok (v :: l, st2)).map Prod.fst = _
    rw [calc_state_independent s s' h_f h_p_prime h_b_prime h_w_prime b]
    rfl

end FishCalc

end

/-! ## Taylor-polynomial enclosures for sin and cos

Alternating-series bounds, derived by the classical integration chain:
each bound's derivative is the previous bound.  Used to pin down the
scenario values of `theta0` and `theta2` to four decimal places. -/

namespace TrigTaylor

lemma nonneg_of_hasDerivAt (f g : ℝ → ℝ)
    (hder : ∀ x, HasDerivAt f (g x) x) (hf0 : f 0 = 0)
    (hg : ∀ x, 0 ≤ x → 0 ≤ g x) : ∀ x, 0 ≤ x → 0 ≤ f x := by
  intro x hx
  have hmono : MonotoneOn f (Set.Ici (0 : ℝ)) := by
    refine monotoneOn_of_deriv_nonneg (convex_Ici 0) ?_ ?_ ?_
    · exact fun y _ => (hder y).continuousAt.continuousWithinAt
    · exact fun y _ => (hder y).differentiableAt.differentiableWithinAt
    · intro y hy
      rw [interior_Ici] at hy
      rw [(hder y).deriv]
      exact hg y (le_of_lt hy)
  have h := hmono Set.left_mem_Ici (show x ∈ Set.Ici 0 from hx) hx
  rw [hf0] at h
  exact h

lemma sin_ge_P3 : ∀ x : ℝ, 0 ≤ x → x - x ^ 3 / 6 ≤ Real.sin x := by
  intro x hx
  have key := nonneg_of_hasDerivAt
    (fun y => Real.sin y - (y - y ^ 3 / 6))
    (fun y => Real.cos y - (1 - y ^ 2 / 2)) ?_ ?_ ?_ x hx
  · linarith
  · intro y
    have hpoly : HasDerivAt (fun t : ℝ => t - t ^ 3 / 6) (1 - y ^ 2 / 2) y := by
      have h1 := (hasDerivAt_id y).sub ((hasDerivAt_pow 3 y).div_const 6)
      convert h1 using 1
      push_cast
      ring
    exact (Real.hasDerivAt_sin y).sub hpoly
  · simp
  · intro y _
    have := Real.one_sub_sq_div_two_le_cos (x := y)
    linarith

lemma cos_le_Q4 : ∀ x : ℝ, 0 ≤ x → Real.cos x ≤ 1 - x ^ 2 / 2 + x ^ 4 / 24 := by
  intro x hx
  have key := nonneg_of_hasDerivAt
    (fun y => 1 - y ^ 2 / 2 + y ^ 4 / 24 - Real.cos y)
    (fun y => Real.sin y - (y - y ^ 3 / 6)) ?_ ?_ ?_ x hx
  · linarith
  · intro y
    have hpoly : HasDerivAt (fun t : ℝ => 1 - t ^ 2 / 2 + t ^ 4 / 24)
        (-(y : ℝ) + y ^ 3 / 6) y := by
      have h1 := ((hasDerivAt_const y (1 : ℝ)).sub
        ((hasDerivAt_pow 2 y).div_const 2)).add ((hasDerivAt_pow 4 y).div_const 24)
      convert h1 using 1
      push_cast
      ring
    have h2 := hpoly.sub (Real.hasDerivAt_cos y)
    convert h2 using 1
    ring
  · simp
  · intro y hy
    have := sin_ge_P3 y hy
    linarith

lemma sin_le_P5 : ∀ x : ℝ, 0 ≤ x →
    Real.sin x ≤ x - x ^ 3 / 6 + x ^ 5 / 120 := by
  intro x hx
  have key := nonneg_of_hasDerivAt
    (fun y => y - y ^ 3 / 6 + y ^ 5 / 120 - Real.sin y)
    (fun y => 1 - y ^ 2 / 2 + y ^ 4 / 24 - Real.cos y) ?_ ?_ ?_ x hx
  · linarith
  · intro y
    have hpoly : HasDerivAt (fun t : ℝ => t - t ^ 3 / 6 + t ^ 5 / 120)
        (1 - y ^ 2 / 2 + y ^ 4 / 24) y := by
      have h1 := ((hasDerivAt_id y).sub ((hasDerivAt_pow 3 y).div_const 6)).add
        ((hasDerivAt_pow 5 y).div_const 120)
      convert h1 using 1
      push_cast
      ring
    exact hpoly.sub (Real.hasDerivAt_sin y)
  · simp
  · intro y hy
    have := cos_le_Q4 y hy
    linarith

lemma cos_ge_Q6 : ∀ x : ℝ, 0 ≤ x →
    1 - x ^ 2 / 2 + x ^ 4 / 24 - x ^ 6 / 720 ≤ Real.cos x := by
  intro x hx
  have key := nonneg_of_hasDerivAt
    (fun y => Real.cos y - (1 - y ^ 2 / 2 + y ^ 4 / 24 - y ^ 6 / 720))
    (fun y => y - y ^ 3 / 6 + y ^ 5 / 120 - Real.sin y) ?_ ?_ ?_ x hx
  · linarith
  · intro y
    have hpoly : HasDerivAt
        (fun t : ℝ => 1 - t ^ 2 / 2 + t ^ 4 / 24 - t ^ 6 / 720)
        (-(y : ℝ) + y ^ 3 / 6 - y ^ 5 / 120) y := by
      have h1 := (((hasDerivAt_const y (1 : ℝ)).sub
        ((hasDerivAt_pow 2 y).div_const 2)).add
        ((hasDerivAt_pow 4 y).div_const 24)).sub
        ((hasDerivAt_pow 6 y).div_const 720)
      convert h1 using 1
      push_cast
      ring
    have h2 := (Real.hasDerivAt_cos y).sub hpoly
    convert h2 using 1
    ring
  · simp
  · intro y hy
    have := sin_le_P5 y hy
    linarith

lemma sin_ge_P7 : ∀ x : ℝ, 0 ≤ x →
    x - x ^ 3 / 6 + x ^ 5 / 120 - x ^ 7 / 5040 ≤ Real.sin x := by
  intro x hx
  have key := nonneg_of_hasDerivAt
    (fun y => Real.sin y - (y - y ^ 3 / 6 + y ^ 5 / 120 - y ^ 7 / 5040))
    (fun y => Real.cos y - (1 - y ^ 2 / 2 + y ^ 4 / 24 - y ^ 6 / 720)) ?_ ?_ ?_ x hx
  · linarith
  · intro y
    have hpoly : HasDerivAt
        (fun t : ℝ => t - t ^ 3 / 6 + t ^ 5 / 120 - t ^ 7 / 5040)
        (1 - y ^ 2 / 2 + y ^ 4 / 24 - y ^ 6 / 720) y := by
      have h1 := (((hasDerivAt_id y).sub
        ((hasDerivAt_pow 3 y).div_const 6)).add
        ((hasDerivAt_pow 5 y).div_const 120)).sub
        ((hasDerivAt_pow 7 y).div_const 5040)
      convert h1 using 1
      push_cast
      ring
    exact (Real.hasDerivAt_sin y).sub hpoly
  · simp
  · intro y hy
    have := cos_ge_Q6 y hy
    linarith

lemma cos_le_Q8 : ∀ x : ℝ, 0 ≤ x →
    Real.cos x ≤ 1 - x ^ 2 / 2 + x ^ 4 / 24 - x ^ 6 / 720 + x ^ 8 / 40320 := by
  intro x hx
  have key := nonneg_of_hasDerivAt
    (fun y => 1 - y ^ 2 / 2 + y ^ 4 / 24 - y ^ 6 / 720 + y ^ 8 / 40320 -
      Real.cos y)
    (fun y => Real.sin y -
      (y - y ^ 3 / 6 + y ^ 5 / 120 - y ^ 7 / 5040)) ?_ ?_ ?_ x hx
  · linarith
  · intro y
    have hpoly : HasDerivAt
        (fun t : ℝ => 1 - t ^ 2 / 2 + t ^ 4 / 24 - t ^ 6 / 720 + t ^ 8 / 40320)
        (-(y : ℝ) + y ^ 3 / 6 - y ^ 5 / 120 + y ^ 7 / 5040) y := by
      have h1 := ((((hasDerivAt_const y (1 : ℝ)).sub
        ((hasDerivAt_pow 2 y).div_const 2)).add
        ((hasDerivAt_pow 4 y).div_const 24)).sub
        ((hasDerivAt_pow 6 y).div_const 720)).add
        ((hasDerivAt_pow 8 y).div_const 40320)
      convert h1 using 1
      push_cast
      ring
    have h2 := hpoly.sub (Real.hasDerivAt_cos y)
    convert h2 using 1
    ring
  · simp
  · intro y hy
    have := sin_ge_P7 y hy
    linarith

lemma sin_le_P9 : ∀ x : ℝ, 0 ≤ x →
    Real.sin x ≤ x - x ^ 3 / 6 + x ^ 5 / 120 - x ^ 7 / 5040 + x ^ 9 / 362880 := by
  intro x hx
  have key := nonneg_of_hasDerivAt
    (fun y => y - y ^ 3 / 6 + y ^ 5 / 120 - y ^ 7 / 5040 + y ^ 9 / 362880 -
      Real.sin y)
    (fun y => 1 - y ^ 2 / 2 + y ^ 4 / 24 - y ^ 6 / 720 + y ^ 8 / 40320 -
      Real.cos y) ?_ ?_ ?_ x hx
  · linarith
  · intro y
    have hpoly : HasDerivAt
        (fun t : ℝ =>
          t - t ^ 3 / 6 + t ^ 5 / 120 - t ^ 7 / 5040 + t ^ 9 / 362880)
        (1 - y ^ 2 / 2 + y ^ 4 / 24 - y ^ 6 / 720 + y ^ 8 / 40320) y := by
      have h1 := ((((hasDerivAt_id y).sub
        ((hasDerivAt_pow 3 y).div_const 6)).add
        ((hasDerivAt_pow 5 y).div_const 120)).sub
        ((hasDerivAt_pow 7 y).div_const 5040)).add
        ((hasDerivAt_pow 9 y).div_const 362880)
      convert h1 using 1
      push_cast
      ring
    exact hpoly.sub (Real.hasDerivAt_sin y)
  · simp
  · intro y hy
    have := cos_le_Q8 y hy
    linarith

end TrigTaylor

/-! ## Numeric enclosures at the small-class scenario config

At `(h_f, h_p_prime, h_b_prime, h_w_prime, beta) = (0.02, 0.075, 0.20, 0.07, 0)`
the planar stage yields `d_p_1 = 0.0814` and `h_p = 0.055`, so
`theta0 = arctan (25/37)` and `sin_refracted = 37 / √1994 / 1.33`. -/

namespace FishCalc

lemma arctan_2537_lower : (0.59417 : ℝ) < Real.arctan (25 / 37) := by
  have hpi := Real.pi_gt_three
  have ha2 : (0.59417 : ℝ) < Real.pi / 2 := by linarith
  have hcos : 0 < Real.cos 0.59417 :=
    Real.cos_pos_of_mem_Ioo ⟨by linarith, ha2⟩
  have hs := TrigTaylor.sin_le_P9 0.59417 (by norm_num)
  have hc := TrigTaylor.cos_ge_Q6 0.59417 (by norm_num)
  have hnum : (0.59417 : ℝ) - 0.59417 ^ 3 / 6 + 0.59417 ^ 5 / 120 -
      0.59417 ^ 7 / 5040 + 0.59417 ^ 9 / 362880 <
      25 / 37 * (1 - 0.59417 ^ 2 / 2 + 0.59417 ^ 4 / 24 - 0.59417 ^ 6 / 720) := by
    norm_num
  have hmul := mul_le_mul_of_nonneg_left hc (by norm_num : (0 : ℝ) ≤ 25 / 37)
  have htan : Real.tan 0.59417 < 25 / 37 := by
    rw [Real.tan_eq_sin_div_cos, div_lt_iff hcos]
    linarith
  calc (0.59417 : ℝ) = Real.arctan (Real.tan 0.59417) :=
      (Real.arctan_tan (by linarith) ha2).symm
    _ < Real.arctan (25 / 37) := Real.arctan_strictMono htan

lemma arctan_2537_upper : Real.arctan (25 / 37) < 0.59424 := by
  have hpi := Real.pi_gt_three
  have hb2 : (0.59424 : ℝ) < Real.pi / 2 := by linarith
  have hcos : 0 < Real.cos 0.59424 :=
    Real.cos_pos_of_mem_Ioo ⟨by linarith, hb2⟩
  have hs := TrigTaylor.sin_ge_P7 0.59424 (by norm_num)
  have hc := TrigTaylor.cos_le_Q8 0.59424 (by norm_num)
  have hnum : 25 / 37 * (1 - 0.59424 ^ 2 / 2 + 0.59424 ^ 4 / 24 -
      0.59424 ^ 6 / 720 + 0.59424 ^ 8 / 40320) <
      (0.59424 : ℝ) - 0.59424 ^ 3 / 6 + 0.59424 ^ 5 / 120 -
      0.59424 ^ 7 / 5040 := by
    norm_num
  have hmul := mul_le_mul_of_nonneg_left hc (by norm_num : (0 : ℝ) ≤ 25 / 37)
  have htan : (25 / 37 : ℝ) < Real.tan 0.59424 := by
    rw [Real.tan_eq_sin_div_cos, lt_div_iff hcos]
    linarith
  calc Real.arctan (25 / 37) < Real.arctan (Real.tan 0.59424) :=
      Real.arctan_strictMono htan
    _ = 0.59424 := Real.arctan_tan (by linarith) hb2

lemma sqrt1994_lower : (44.6542 : ℝ) < Real.sqrt 1994 :=
  (Real.lt_sqrt (by norm_num)).mpr (by norm_num)

lemma sqrt1994_upper : Real.sqrt 1994 < 44.6543 :=
  (Real.sqrt_lt' (by norm_num)).mpr (by norm_num)

lemma sqrt1994_pos : 0 < Real.sqrt 1994 :=
  Real.sqrt_pos.mpr (by norm_num)

/-- At the scenario config the `asin` argument reduces to
`(37 / √1994) / n21` for any ratio `n21`. -/
lemma sin_refracted_small_gen (n : ℝ) :
    sin_refracted n (0.075 - 0.02) (d_p_noSnell 0.02 0.075 0.20 0) =
      37 / Real.sqrt 1994 / n := by
  unfold sin_refracted theta1
  rw [theta0_small]
  rw [show (0.5 : ℝ) * Real.pi - Real.arctan (25 / 37) =
    Real.pi / 2 - Real.arctan (25 / 37) by ring]
  rw [Real.sin_pi_div_two_sub, Real.cos_arctan]
  congr 1
  rw [show (1 : ℝ) + (25 / 37) ^ 2 = 1994 * (1 / 37) ^ 2 by norm_num]
  rw [Real.sqrt_mul (by norm_num) ((1 / 37) ^ 2),
    Real.sqrt_sq (by norm_num : (0 : ℝ) ≤ 1 / 37)]
  rw [show Real.sqrt 1994 * (1 / 37) = Real.sqrt 1994 / 37 by ring, one_div_div]

lemma s_small_lower :
    (37 : ℝ) / 44.6543 / 1.33 <
      37 / Real.sqrt 1994 / 1.33 := by
  have h1 : (37 : ℝ) / 44.6543 < 37 / Real.sqrt 1994 :=
    div_lt_div_of_pos_left (by norm_num) sqrt1994_pos sqrt1994_upper
  exact (div_lt_div_right (by norm_num)).mpr h1

lemma s_small_upper :
    (37 : ℝ) / Real.sqrt 1994 / 1.33 < 37 / 44.6542 / 1.33 := by
  have h1 : (37 : ℝ) / Real.sqrt 1994 < 37 / 44.6542 :=
    div_lt_div_of_pos_left (by norm_num) (by norm_num) sqrt1994_lower
  exact (div_lt_div_right (by norm_num)).mpr h1

lemma s_small_pos : (0 : ℝ) < 37 / Real.sqrt 1994 / 1.33 := by
  have := s_small_lower
  have h0 : (0 : ℝ) < 37 / 44.6543 / 1.33 := by norm_num
  linarith

lemma theta2_small_eq :
    theta2 1.33 (0.075 - 0.02) (d_p_noSnell 0.02 0.075 0.20 0) =
      Real.arcsin (37 / Real.sqrt 1994 / 1.33) := by
  unfold theta2
  rw [sin_refracted_small_gen]

lemma s_small_le_one : (37 : ℝ) / Real.sqrt 1994 / 1.33 ≤ 1 := by
  have := s_small_upper
  have : (37 : ℝ) / 44.6542 / 1.33 < 1 := by norm_num
  linarith [s_small_upper]

lemma s_small_ge_negone : (-1 : ℝ) ≤ 37 / Real.sqrt 1994 / 1.33 := by
  have := s_small_pos
  linarith

lemma theta2_small_lower :
    (0.672555 : ℝ) <
      theta2 1.33 (0.075 - 0.02) (d_p_noSnell 0.02 0.075 0.20 0) := by
  rw [theta2_small_eq]
  have hpi := Real.pi_gt_three
  have ha : (0.672555 : ℝ) = Real.arcsin (Real.sin 0.672555) :=
    (Real.arcsin_sin (by linarith) (by linarith)).symm
  rw [ha]
  apply Real.strictMonoOn_arcsin
    (Set.mem_Icc.mpr ⟨Real.neg_one_le_sin _, Real.sin_le_one _⟩)
    (Set.mem_Icc.mpr ⟨s_small_ge_negone, s_small_le_one⟩)
  have hsin := TrigTaylor.sin_le_P9 0.672555 (by norm_num)
  have hnum : (0.672555 : ℝ) - 0.672555 ^ 3 / 6 + 0.672555 ^ 5 / 120 -
      0.672555 ^ 7 / 5040 + 0.672555 ^ 9 / 362880 < 37 / 44.6543 / 1.33 := by
    norm_num
  have := s_small_lower
  linarith

lemma theta2_small_upper :
    theta2 1.33 (0.075 - 0.02) (d_p_noSnell 0.02 0.075 0.20 0) <
      0.672585 := by
  rw [theta2_small_eq]
  have hpi := Real.pi_gt_three
  have hb : (0.672585 : ℝ) = Real.arcsin (Real.sin 0.672585) :=
    (Real.arcsin_sin (by linarith) (by linarith)).symm
  rw [hb]
  apply Real.strictMonoOn_arcsin
    (Set.mem_Icc.mpr ⟨s_small_ge_negone, s_small_le_one⟩)
    (Set.mem_Icc.mpr ⟨Real.neg_one_le_sin _, Real.sin_le_one _⟩)
  have hsin := TrigTaylor.sin_ge_P7 0.672585 (by norm_num)
  have hnum : (37 : ℝ) / 44.6542 / 1.33 <
      (0.672585 : ℝ) - 0.672585 ^ 3 / 6 + 0.672585 ^ 5 / 120 -
      0.672585 ^ 7 / 5040 := by
    norm_num
  have := s_small_upper
  linarith

lemma d_s_small_bounds :
    (0.039820 : ℝ) <
      d_s 1.33 (0.07 - 0.02) (0.075 - 0.02) (d_p_noSnell 0.02 0.075 0.20 0) ∧
    d_s 1.33 (0.07 - 0.02) (0.075 - 0.02) (d_p_noSnell 0.02 0.075 0.20 0) <
      0.039824 := by
  unfold d_s
  rw [theta2_small_eq, Real.tan_arcsin]
  have hslo := s_small_lower
  have hsup := s_small_upper
  have hspos := s_small_pos
  set s : ℝ := 37 / Real.sqrt 1994 / 1.33 with hs_def
  have hw_lo : (0.782221 : ℝ) < Real.sqrt (1 - s ^ 2) := by
    apply (Real.lt_sqrt (by norm_num)).mpr
    have hnum : ((37 : ℝ) / 44.6542 / 1.33) ^ 2 + 0.782221 ^ 2 < 1 := by
      norm_num
    nlinarith
  have hw_up : Real.sqrt (1 - s ^ 2) < 0.782224 := by
    apply (Real.sqrt_lt' (by norm_num)).mpr
    have hnum : (1 : ℝ) < ((37 : ℝ) / 44.6543 / 1.33) ^ 2 + 0.782224 ^ 2 := by
      norm_num
    nlinarith
  have hw_pos : (0 : ℝ) < Real.sqrt (1 - s ^ 2) := by linarith
  constructor
  · have hdiv : (37 : ℝ) / 44.6543 / 1.33 / 0.782224 < s / Real.sqrt (1 - s ^ 2) := by
      rw [div_lt_div_iff (by norm_num) hw_pos]
      nlinarith
    have hnum2 : (0.039820 : ℝ) < 0.05 * ((37 : ℝ) / 44.6543 / 1.33 / 0.782224) := by
      norm_num
    nlinarith
  · have hdiv : s / Real.sqrt (1 - s ^ 2) < (37 : ℝ) / 44.6542 / 1.33 / 0.782221 := by
      rw [div_lt_div_iff hw_pos (by norm_num)]
      nlinarith
    have hnum2 : 0.05 * ((37 : ℝ) / 44.6542 / 1.33 / 0.782221) < 0.039824 := by
      norm_num
    nlinarith

/-- At the scenario config, the corrected distance is `0.0074 + d_s`. -/
lemma solve_value_small :
    solve_value 0.02 0.075 0.20 0.07 0 =
      0.0074 + d_s 1.33 (0.07 - 0.02) (0.075 - 0.02)
        (d_p_noSnell 0.02 0.075 0.20 0) := by
  unfold solve_value d_p_2 d_p_2_beta
  rw [tan_theta0_small]
  rw [show (0.5 : ℝ) * Real.pi - 0 = Real.pi / 2 by ring, Real.sin_pi_div_two,
    mul_one, d_p_noSnell_small]
  norm_num

end FishCalc

/-! ## Claim C4: Scenario A, planar stage at zero angle -/

/-- **C4**: for the small-class config (`eye_height = 0.02`,
`partition_height = 0.075`, `stimulus_height = 0.20`,
`partition_stimulus_gap = 0.185`) at `viewing_angle = 0`,
`solve_no_refraction` returns `distance_no_refraction` equal to
`(0.055 × 0.185) / (0.18 − 0.055)`, which is exactly `0.0814` m. -/
theorem C4_scenario_A_no_refraction :
    FishCalc.calc_fish_eye_to_partition_no_Snell 0.02 0.075 0.20 0 =
      .ok ⟨0.055 * 0.185 / (0.18 - 0.055), 0.075 - 0.02⟩ ∧
    (0.055 * 0.185 / (0.18 - 0.055) : ℝ) = 0.0814 := by
  constructor
  · rw [FishCalc.no_Snell_ok 0.02 0.075 0.20 0 (by rw [Real.cos_zero]; norm_num)
      (by norm_num)]
    have : FishCalc.d_p_noSnell 0.02 0.075 0.20 0 = 0.055 * 0.185 / (0.18 - 0.055) := by
      unfold FishCalc.d_p_noSnell FishCalc.d_b_beta
      rw [Real.cos_zero]
      norm_num
    rw [this]
  · norm_num

/-! ## Claim C8: planar symmetry in the viewing angle -/

/-- **C8**: for every config and viewing angle `β`, the planar stage at `β`
and at `−β` produces the identical `gap_at_angle` (`d_b / cos β`) and the
identical full result (distance and relative partition height). -/
theorem C8_planar_symmetry (h_f h_p_prime h_b_prime beta : ℝ) :
    FishCalc.d_b_beta (-beta) = FishCalc.d_b_beta beta ∧
    FishCalc.calc_fish_eye_to_partition_no_Snell h_f h_p_prime h_b_prime (-beta) =
      FishCalc.calc_fish_eye_to_partition_no_Snell h_f h_p_prime h_b_prime beta := by
  constructor
  · unfold FishCalc.d_b_beta
    rw [Real.cos_neg]
  · unfold FishCalc.calc_fish_eye_to_partition_no_Snell FishCalc.d_p_noSnell
      FishCalc.d_b_beta
    rw [Real.cos_neg]

/-! ## Claim C1: the water-height guard only logs, it does not raise -/

/-- **C1 counterexample**: for the config with `water_height = 0.01` below
`eye_height = 0.02` (so `relative_water_height ≤ 0`) at angle `0`, the print
condition for the water-height ERROR holds, yet `solve_with_refraction`
does not fail: it returns a value.  The claim that it raises an
`InvalidGeometryError` surfaced to the caller is false of the code. -/
theorem C1_counterexample :
    FishCalc.hwErrorCond 0.02 0.01 ∧
    FishCalc.calc_fish_eye_to_partition false 0.02 0.075 0.20 0.01 0 =
      .ok (FishCalc.solve_value 0.02 0.075 0.20 0.01 0, true) := by
  constructor
  · show (0.01 : ℝ) - 0.02 ≤ 0
    norm_num
  · exact FishCalc.calc_ok false 0.02 0.075 0.20 0.01 0
      (by rw [Real.cos_zero]; norm_num) (by norm_num)
      (by rw [FishCalc.tan_theta0_small]; norm_num)

/-- **C1 (amended)**: for every config with `water_height ≤ eye_height`
and every viewing angle, the condition for the source's water-height ERROR
print holds, but no error is surfaced to the caller: whenever the planar
stage and the later division succeed, `solve_with_refraction` still
returns a value (the message is merely logged). -/
theorem C1_amended (s : Bool) (h_f h_p_prime h_b_prime h_w_prime beta : ℝ)
    (hw : h_w_prime ≤ h_f)
    (h1 : Real.cos beta ≠ 0)
    (h2 : (h_b_prime - h_f) - (h_p_prime - h_f) ≠ 0)
    (h5 : Real.tan (FishCalc.theta0 (h_p_prime - h_f)
      (FishCalc.d_p_noSnell h_f h_p_prime h_b_prime beta)) ≠ 0) :
    FishCalc.hwErrorCond h_f h_w_prime ∧
    FishCalc.calc_fish_eye_to_partition s h_f h_p_prime h_b_prime h_w_prime beta =
      .ok (FishCalc.solve_value h_f h_p_prime h_b_prime h_w_prime beta, true) := by
  refine ⟨?_, FishCalc.calc_ok s h_f h_p_prime h_b_prime h_w_prime beta h1 h2 h5⟩
  show h_w_prime - h_f ≤ 0
  linarith

/-- Witness for `C1_amended` at a concrete config. -/
theorem C1_amended_witness :
    (0.01 : ℝ) ≤ 0.02 ∧
    (FishCalc.hwErrorCond 0.02 0.01 ∧
      FishCalc.calc_fish_eye_to_partition true 0.02 0.075 0.20 0.01 0 =
        .ok (FishCalc.solve_value 0.02 0.075 0.20 0.01 0, true)) :=
  ⟨by norm_num,
    C1_amended true 0.02 0.075 0.20 0.01 0 (by norm_num)
      (by rw [Real.cos_zero]; norm_num) (by norm_num)
      (by rw [FishCalc.tan_theta0_small]; norm_num)⟩

/-! ## Claim C5: zero planar denominator crashes instead of warning -/

/-- **C5 counterexample**: with `partition_height = stimulus_height = 0.075`
(zero planar denominator) at angle `0`, `solve_no_refraction` does crash —
it raises an uncaught `ZeroDivisionError` — and no domain warning is
surfaced (the only warning print in the source is the `±π/2` one, whose
condition is false at angle `0`). -/
theorem C5_counterexample :
    FishCalc.calc_fish_eye_to_partition_no_Snell 0.02 0.075 0.075 0 =
      .error .zeroDivision ∧
    ¬ FishCalc.betaWarnCond 0 := by
  constructor
  · unfold FishCalc.calc_fish_eye_to_partition_no_Snell
    rw [if_neg (by rw [Real.cos_zero]; norm_num : ¬ Real.cos 0 = 0),
      if_pos (by norm_num)]
  · intro h
    have hpi := Real.pi_gt_three
    rcases h with h | h
    · rw [show (0 : ℝ) - Real.pi * 0.5 = -(Real.pi * 0.5) by ring, abs_neg,
        abs_of_pos (by linarith)] at h
      norm_num at h
      linarith
    · rw [show (0 : ℝ) + Real.pi * 0.5 = Real.pi * 0.5 by ring,
        abs_of_pos (by linarith)] at h
      norm_num at h
      linarith

/-- **C5 (amended)**: for every config and angle with `cos beta ≠ 0`, a zero
planar denominator (`relative_stimulus_height = relative_partition_height`)
makes `solve_no_refraction` raise an uncaught `ZeroDivisionError`, and a
nonzero denominator yields a finite real result. -/
theorem C5_amended (h_f h_p_prime h_b_prime beta : ℝ)
    (h1 : Real.cos beta ≠ 0) :
    ((h_b_prime - h_f) - (h_p_prime - h_f) = 0 →
      FishCalc.calc_fish_eye_to_partition_no_Snell h_f h_p_prime h_b_prime beta =
        .error .zeroDivision) ∧
    ((h_b_prime - h_f) - (h_p_prime - h_f) ≠ 0 →
      FishCalc.calc_fish_eye_to_partition_no_Snell h_f h_p_prime h_b_prime beta =
        .ok ⟨FishCalc.d_p_noSnell h_f h_p_prime h_b_prime beta, h_p_prime - h_f⟩) := by
  constructor
  · intro h2
    unfold FishCalc.calc_fish_eye_to_partition_no_Snell
    rw [if_neg h1, if_pos h2]
  · intro h2
    exact FishCalc.no_Snell_ok h_f h_p_prime h_b_prime beta h1 h2

/-- Witness for `C5_amended` at a concrete config with a zero denominator. -/
theorem C5_amended_witness :
    Real.cos 0 ≠ 0 ∧
    (((0.075 : ℝ) - 0.02) - (0.075 - 0.02) = 0 →
      FishCalc.calc_fish_eye_to_partition_no_Snell 0.02 0.075 0.075 0 =
        .error .zeroDivision) ∧
    (((0.075 : ℝ) - 0.02) - (0.075 - 0.02) ≠ 0 →
      FishCalc.calc_fish_eye_to_partition_no_Snell 0.02 0.075 0.075 0 =
        .ok ⟨FishCalc.d_p_noSnell 0.02 0.075 0.075 0, 0.075 - 0.02⟩) := by
  have h1 : Real.cos 0 ≠ 0 := by rw [Real.cos_zero]; norm_num
  exact ⟨h1, C5_amended 0.02 0.075 0.075 0 h1⟩

/-! ## Claim C2: the sweep never skips a warned angle -/

/-- **C2 counterexample**: a sweep whose input angles are `[π/2, 0]` does
not return a shorter result containing the valid angle's point — it
returns no result at all: the division by `cos(π/2) = 0` raises an
uncaught `ZeroDivisionError` that aborts the whole sweep.  No angle is
ever skipped. -/
theorem C2_counterexample :
    FishCalc.sweep false 0.02 0.075 0.20 0.07 [Real.pi / 2, 0] =
      .error .zeroDivision := by
  have hns : FishCalc.calc_fish_eye_to_partition_no_Snell 0.02 0.075 0.20
      (Real.pi / 2) = .error .zeroDivision := by
    unfold FishCalc.calc_fish_eye_to_partition_no_Snell
    rw [if_pos Real.cos_pi_div_two]
  have hc : FishCalc.calc_fish_eye_to_partition false 0.02 0.075 0.20 0.07
      (Real.pi / 2) = .error .zeroDivision :=
    FishCalc.calc_err false 0.02 0.075 0.20 0.07 (Real.pi / 2) _ hns
  show (match FishCalc.calc_fish_eye_to_partition false 0.02 0.075 0.20 0.07
      (Real.pi / 2) with
    | Except.error e => Except.error e
    | Except.ok (v, st) =>
      match FishCalc.sweep st 0.02 0.075 0.20 0.07 [0] with
      | Except.error e => Except.error e
      | Except.ok (l, st2) => Except.ok (v :: l, st2)) = .error FishCalc.PyError.zeroDivision
  rw [hc]

/-- **C2 (amended)**: the sweep skips nothing.  For every config and angle
sequence on which every individual call succeeds, the sweep returns one
point per input angle, in input order, with the values given by the
closed-form solver — the result has exactly the input's length, not fewer.
(An angle that makes a division raise, such as exactly `π/2`, aborts the
entire sweep instead of being skipped; see the counterexample.) -/
theorem C2_amended (s : Bool) (h_f h_p_prime h_b_prime h_w_prime : ℝ)
    (betas : List ℝ)
    (h2 : (h_b_prime - h_f) - (h_p_prime - h_f) ≠ 0)
    (hb : ∀ beta ∈ betas, Real.cos beta ≠ 0 ∧
      Real.tan (FishCalc.theta0 (h_p_prime - h_f)
        (FishCalc.d_p_noSnell h_f h_p_prime h_b_prime beta)) ≠ 0) :
    ∃ st : Bool,
      FishCalc.sweep s h_f h_p_prime h_b_prime h_w_prime betas =
        .ok (betas.map (FishCalc.solve_value h_f h_p_prime h_b_prime h_w_prime),
          st) := by
  induction betas generalizing s with
  | nil => exact ⟨s, rfl⟩
  | cons b rest ih =>
    obtain ⟨hcos, htan⟩ := hb b (List.mem_cons_self b rest)
    obtain ⟨st, hst⟩ := ih true (fun beta hbeta => hb beta (List.mem_cons_of_mem b hbeta))
    refine ⟨st, ?_⟩
    show (match FishCalc.calc_fish_eye_to_partition s h_f h_p_prime h_b_prime
        h_w_prime b with
      | Except.error e => Except.error e
      | Except.ok (v, st) =>
        match FishCalc.sweep st h_f h_p_prime h_b_prime h_w_prime rest with
        | Except.error e => Except.error e
        | Except.ok (l, st2) => Except.ok (v :: l, st2)) = _
    rw [FishCalc.calc_ok s h_f h_p_prime h_b_prime h_w_prime b hcos h2 htan]
    show (match FishCalc.sweep true h_f h_p_prime h_b_prime h_w_prime rest with
      | Except.error e => Except.error e
      | Except.ok (l, st2) =>
        .ok (FishCalc.solve_value h_f h_p_prime h_b_prime h_w_prime b :: l, st2)) = _
    rw [hst]
    rfl

/-- Witness for `C2_amended`: a one-angle sweep at the small config. -/
theorem C2_amended_witness :
    ((0.20 : ℝ) - 0.02) - (0.075 - 0.02) ≠ 0 ∧
    (∀ beta ∈ [(0 : ℝ)], Real.cos beta ≠ 0 ∧
      Real.tan (FishCalc.theta0 (0.075 - 0.02)
        (FishCalc.d_p_noSnell 0.02 0.075 0.20 beta)) ≠ 0) ∧
    ∃ st : Bool,
      FishCalc.sweep false 0.02 0.075 0.20 0.07 [0] =
        .ok ([(0 : ℝ)].map (FishCalc.solve_value 0.02 0.075 0.20 0.07), st) := by
  have h2 : ((0.20 : ℝ) - 0.02) - (0.075 - 0.02) ≠ 0 := by norm_num
  have hb : ∀ beta ∈ [(0 : ℝ)], Real.cos beta ≠ 0 ∧
      Real.tan (FishCalc.theta0 (0.075 - 0.02)
        (FishCalc.d_p_noSnell 0.02 0.075 0.20 beta)) ≠ 0 := by
    intro beta hbeta
    rw [List.mem_singleton] at hbeta
    subst hbeta
    exact ⟨by rw [Real.cos_zero]; norm_num,
      by rw [FishCalc.tan_theta0_small]; norm_num⟩
  exact ⟨h2, hb, C2_amended false 0.02 0.075 0.20 0.07 [0] h2 hb⟩

/-! ## Claim C7: determinism and state-independence -/

/-- **C7**: the cross-call `input_printed` flag influences only printing,
never the returned values: for every fixed config and angle the solver
returns an identical result from any flag state, and repeated sweeps over
the same config and angle sequence produce identical result lists
(the computation is a pure closed-form expression). -/
theorem C7_determinism :
    (∀ (s s' : Bool) (h_f h_p_prime h_b_prime h_w_prime beta : ℝ),
      FishCalc.calc_fish_eye_to_partition s h_f h_p_prime h_b_prime h_w_prime
        beta =
      FishCalc.calc_fish_eye_to_partition s' h_f h_p_prime h_b_prime h_w_prime
        beta) ∧
    (∀ (s s' : Bool) (h_f h_p_prime h_b_prime h_w_prime : ℝ) (betas : List ℝ),
      (FishCalc.sweep s h_f h_p_prime h_b_prime h_w_prime betas).map Prod.fst =
      (FishCalc.sweep s' h_f h_p_prime h_b_prime h_w_prime betas).map Prod.fst) :=
  ⟨fun s s' h_f h_p_prime h_b_prime h_w_prime beta =>
      FishCalc.calc_state_independent s s' h_f h_p_prime h_b_prime h_w_prime beta,
    fun s s' h_f h_p_prime h_b_prime h_w_prime betas =>
      FishCalc.sweep_fst_state_independent betas s s' h_f h_p_prime h_b_prime
        h_w_prime⟩

/-! ## Claim C3: Scenario B, refraction stage at zero angle -/

/-- **C3 counterexample**: at the Scenario B config the intermediate
values claimed by the spec are wrong: `theta0` is `0.5942`, not `0.5917`
(off by more than `2e-3`), and `theta2` is `0.6726`, not `0.6744`
(off by more than `1.8e-3`). -/
theorem C3_counterexample :
    |FishCalc.theta0 (0.075 - 0.02) (FishCalc.d_p_noSnell 0.02 0.075 0.20 0) -
      0.5917| > 2e-3 ∧
    |FishCalc.theta2 1.33 (0.075 - 0.02)
      (FishCalc.d_p_noSnell 0.02 0.075 0.20 0) - 0.6744| > 1.8e-3 := by
  constructor
  · rw [FishCalc.theta0_small]
    have h1 := FishCalc.arctan_2537_lower
    rw [abs_of_pos (by linarith)]
    linarith
  · have h2 := FishCalc.theta2_small_upper
    have h3 := FishCalc.theta2_small_lower
    rw [abs_of_neg (by linarith)]
    linarith

/-- **C3 (amended)**: for the config `eye_height = 0.02`,
`partition_height = 0.075`, `stimulus_height = 0.20`,
`water_height = 0.07`, ratio `1.33`, angle `0`, `solve_with_refraction`
returns `corrected_distance ≈ 0.0472` m via `theta0 ≈ 0.5942` rad,
`theta2 ≈ 0.6726` rad and `surface_offset ≈ 0.0398` m (each within
`5e-5` of the stated value). -/
theorem C3_amended :
    FishCalc.calc_fish_eye_to_partition false 0.02 0.075 0.20 0.07 0 =
      .ok (FishCalc.solve_value 0.02 0.075 0.20 0.07 0, true) ∧
    |FishCalc.theta0 (0.075 - 0.02) (FishCalc.d_p_noSnell 0.02 0.075 0.20 0) -
      0.5942| < 5e-5 ∧
    |FishCalc.theta2 1.33 (0.075 - 0.02)
      (FishCalc.d_p_noSnell 0.02 0.075 0.20 0) - 0.6726| < 5e-5 ∧
    |FishCalc.d_s 1.33 (0.07 - 0.02) (0.075 - 0.02)
      (FishCalc.d_p_noSnell 0.02 0.075 0.20 0) - 0.0398| < 5e-5 ∧
    |FishCalc.solve_value 0.02 0.075 0.20 0.07 0 - 0.0472| < 5e-5 := by
  refine ⟨?_, ?_, ?_, ?_, ?_⟩
  · exact FishCalc.calc_ok false 0.02 0.075 0.20 0.07 0
      (by rw [Real.cos_zero]; norm_num) (by norm_num)
      (by rw [FishCalc.tan_theta0_small]; norm_num)
  · rw [FishCalc.theta0_small, abs_lt]
    have h1 := FishCalc.arctan_2537_lower
    have h2 := FishCalc.arctan_2537_upper
    constructor <;> linarith
  · rw [abs_lt]
    have h1 := FishCalc.theta2_small_lower
    have h2 := FishCalc.theta2_small_upper
    constructor <;> linarith
  · rw [abs_lt]
    have h1 := FishCalc.d_s_small_bounds
    constructor <;> linarith [h1.1, h1.2]
  · rw [FishCalc.solve_value_small, abs_lt]
    have h1 := FishCalc.d_s_small_bounds
    constructor <;> linarith [h1.1, h1.2]

/-! ## Claim C6: out-of-domain Snell argument is a hard error -/

/-- **C6**: whenever the planar stage has produced a point and the
computed `asin` argument satisfies `|sin(theta1) / n21| > 1`, the solver
fails with the `math.asin` domain error (the spec's `OpticalDomainError`),
a hard uncaught exception distinct from the planar stage's soft printed
warnings. -/
theorem C6_optical_domain_error (n21 : ℝ) (s : Bool)
    (h_f h_p_prime h_b_prime h_w_prime beta : ℝ) (pr : FishCalc.NoSnellResult)
    (hok : FishCalc.calc_fish_eye_to_partition_no_Snell h_f h_p_prime h_b_prime
      beta = .ok pr)
    (hguard : 1 < |FishCalc.sin_refracted n21 pr.h_p pr.d_p|) :
    FishCalc.calc_fish_eye_to_partition_ratio n21 s
      h_f h_p_prime h_b_prime h_w_prime beta = .error .valueError := by
  have hn : n21 ≠ 0 := by
    intro h0
    rw [h0] at hguard
    unfold FishCalc.sin_refracted at hguard
    rw [div_zero, abs_zero] at hguard
    norm_num at hguard
  unfold FishCalc.calc_fish_eye_to_partition_ratio
  rw [hok]
  show (if n21 = 0 then Except.error FishCalc.PyError.zeroDivision
    else if 1 < |FishCalc.sin_refracted n21 pr.h_p pr.d_p| then
      Except.error FishCalc.PyError.valueError
    else if Real.tan (FishCalc.theta0 pr.h_p pr.d_p) = 0 then
      Except.error FishCalc.PyError.zeroDivision
    else Except.ok
      (FishCalc.d_p_2 n21 (h_w_prime - h_f) pr.h_p pr.d_p beta, true)) =
    Except.error FishCalc.PyError.valueError
  rw [if_neg hn, if_pos hguard]

/-- Witness for `C6_optical_domain_error`: ratio `0.5` at the small
config makes the `asin` argument `74 / √1994 > 1`. -/
theorem C6_optical_domain_error_witness :
    FishCalc.calc_fish_eye_to_partition_no_Snell 0.02 0.075 0.20 0 =
      .ok ⟨FishCalc.d_p_noSnell 0.02 0.075 0.20 0, 0.075 - 0.02⟩ ∧
    1 < |FishCalc.sin_refracted 0.5 (0.075 - 0.02)
      (FishCalc.d_p_noSnell 0.02 0.075 0.20 0)| ∧
    FishCalc.calc_fish_eye_to_partition_ratio 0.5 false 0.02 0.075 0.20 0.07 0 =
      .error .valueError := by
  have hok : FishCalc.calc_fish_eye_to_partition_no_Snell 0.02 0.075 0.20 0 =
      .ok ⟨FishCalc.d_p_noSnell 0.02 0.075 0.20 0, 0.075 - 0.02⟩ :=
    FishCalc.no_Snell_ok 0.02 0.075 0.20 0 (by rw [Real.cos_zero]; norm_num)
      (by norm_num)
  have hguard : 1 < |FishCalc.sin_refracted 0.5 (0.075 - 0.02)
      (FishCalc.d_p_noSnell 0.02 0.075 0.20 0)| := by
    rw [FishCalc.sin_refracted_small_gen]
    have hq := FishCalc.sqrt1994_upper
    have hqpos := FishCalc.sqrt1994_pos
    have hpos : (0 : ℝ) < 37 / Real.sqrt 1994 / 0.5 := by positivity
    rw [abs_of_pos hpos,
      show (37 : ℝ) / Real.sqrt 1994 / 0.5 = 74 / Real.sqrt 1994 by ring]
    rw [one_lt_div hqpos]
    linarith
  exact ⟨hok, hguard,
    C6_optical_domain_error 0.5 false 0.02 0.075 0.20 0.07 0
      ⟨FishCalc.d_p_noSnell 0.02 0.075 0.20 0, 0.075 - 0.02⟩ hok hguard⟩

/-! ## Claim C9: with ratio 1.33 the asin error branch is unreachable -/

namespace FishCalc

lemma no_Snell_error_elim {e : PyError} (h_f h_p_prime h_b_prime beta : ℝ)
    (h : calc_fish_eye_to_partition_no_Snell h_f h_p_prime h_b_prime beta =
      Except.error e) : e = PyError.zeroDivision := by
  unfold calc_fish_eye_to_partition_no_Snell at h
  split_ifs at h
  · injection h with h2
    exact h2.symm
  · injection h with h2
    exact h2.symm

end FishCalc

/-- **C9**: the `asin` argument is always bounded by `1/1.33 < 1` in
absolute value, so with the hardcoded ratio `1.33` the solver can never
fail at the Snell's-law step — the `ValueError` branch is unreachable for
every input and every flag state. -/
theorem C9_asin_branch_unreachable :
    (∀ h_p d_p_1 : ℝ,
      |FishCalc.sin_refracted 1.33 h_p d_p_1| ≤ 1 / 1.33 ∧ (1 / 1.33 : ℝ) < 1) ∧
    (∀ (s : Bool) (h_f h_p_prime h_b_prime h_w_prime beta : ℝ),
      FishCalc.calc_fish_eye_to_partition s h_f h_p_prime h_b_prime h_w_prime
        beta ≠ .error .valueError) := by
  constructor
  · intro h_p d_p_1
    refine ⟨?_, by norm_num⟩
    unfold FishCalc.sin_refracted
    rw [abs_div, show |(1.33 : ℝ)| = 1.33 by rw [abs_of_pos] <;> norm_num]
    gcongr
    exact Real.abs_sin_le_one _
  · intro s h_f h_p_prime h_b_prime h_w_prime beta
    unfold FishCalc.calc_fish_eye_to_partition
      FishCalc.calc_fish_eye_to_partition_ratio
    cases hns : FishCalc.calc_fish_eye_to_partition_no_Snell h_f h_p_prime
        h_b_prime beta with
    | error e =>
      have he := FishCalc.no_Snell_error_elim h_f h_p_prime h_b_prime beta hns
      subst he
      intro hcontra
      simp at hcontra
    | ok pr =>
      show (if (1.33 : ℝ) = 0 then Except.error FishCalc.PyError.zeroDivision
        else if 1 < |FishCalc.sin_refracted 1.33 pr.h_p pr.d_p| then
          Except.error FishCalc.PyError.valueError
        else if Real.tan (FishCalc.theta0 pr.h_p pr.d_p) = 0 then
          Except.error FishCalc.PyError.zeroDivision
        else Except.ok
          (FishCalc.d_p_2 1.33 (h_w_prime - h_f) pr.h_p pr.d_p beta, true)) ≠
        Except.error FishCalc.PyError.valueError
      rw [if_neg (by norm_num : ¬ (1.33 : ℝ) = 0),
        if_neg (FishCalc.guard_133 pr.h_p pr.d_p)]
      split_ifs
      · intro hcontra
        simp at hcontra
      · exact Except.noConfusion

/-! ## Claim C10: the planar distance is minimized at zero angle -/

/-- **C10**: for every config in the intended regime
(`stimulus_height > partition_height > eye_height`) and viewing angles of
magnitude below `π/2`: `gap_at_angle ≥ 0.185` with equality exactly at
angle `0`, the planar distance is non-decreasing in the angle's magnitude,
and hence is minimized at angle `0`. -/
theorem C10_monotone_in_angle (h_f h_p_prime h_b_prime beta beta2 : ℝ)
    (h1 : h_f < h_p_prime) (h2 : h_p_prime < h_b_prime)
    (hb1 : |beta| < Real.pi / 2) (hb2 : |beta2| < Real.pi / 2) :
    0.185 ≤ FishCalc.d_b_beta beta ∧
    (FishCalc.d_b_beta beta = 0.185 ↔ beta = 0) ∧
    (|beta| ≤ |beta2| →
      FishCalc.d_p_noSnell h_f h_p_prime h_b_prime beta ≤
        FishCalc.d_p_noSnell h_f h_p_prime h_b_prime beta2) ∧
    FishCalc.d_p_noSnell h_f h_p_prime h_b_prime 0 ≤
      FishCalc.d_p_noSnell h_f h_p_prime h_b_prime beta := by
  have hpi := Real.pi_pos
  obtain ⟨hbl, hbu⟩ := abs_lt.mp hb1
  have hcos1 : 0 < Real.cos beta := Real.cos_pos_of_mem_Ioo ⟨hbl, hbu⟩
  have hnum_pos : 0 < h_p_prime - h_f := by linarith
  have hden_pos : (0 : ℝ) < (h_b_prime - h_f) - (h_p_prime - h_f) := by linarith
  have key : ∀ b1 b2 : ℝ, |b1| < Real.pi / 2 → |b2| < Real.pi / 2 →
      |b1| ≤ |b2| →
      FishCalc.d_p_noSnell h_f h_p_prime h_b_prime b1 ≤
        FishCalc.d_p_noSnell h_f h_p_prime h_b_prime b2 := by
    intro b1 b2 hb1' hb2' hle
    obtain ⟨hb1l, hb1u⟩ := abs_lt.mp hb1'
    obtain ⟨hb2l, hb2u⟩ := abs_lt.mp hb2'
    have hc1 : 0 < Real.cos b1 := Real.cos_pos_of_mem_Ioo ⟨hb1l, hb1u⟩
    have hc2 : 0 < Real.cos b2 := Real.cos_pos_of_mem_Ioo ⟨hb2l, hb2u⟩
    have hcc : Real.cos b2 ≤ Real.cos b1 := by
      rw [← Real.cos_abs b1, ← Real.cos_abs b2]
      exact Real.cos_le_cos_of_nonneg_of_le_pi (abs_nonneg b1)
        (by nlinarith [abs_lt.mp hb2']) hle
    unfold FishCalc.d_p_noSnell FishCalc.d_b_beta
    have hgap : 0.185 / Real.cos b1 ≤ 0.185 / Real.cos b2 := by
      rw [div_le_div_iff hc1 hc2]
      nlinarith
    have hmul := mul_le_mul_of_nonneg_left hgap (le_of_lt hnum_pos)
    exact div_le_div_of_nonneg_right hmul (le_of_lt hden_pos)
  refine ⟨?_, ?_, key beta beta2 hb1 hb2, ?_⟩
  · unfold FishCalc.d_b_beta
    rw [le_div_iff hcos1]
    nlinarith [Real.cos_le_one beta]
  · unfold FishCalc.d_b_beta
    constructor
    · intro h
      rw [div_eq_iff (ne_of_gt hcos1)] at h
      have hc1 : Real.cos beta = 1 := by nlinarith
      have h2l : -(2 * Real.pi) < beta := by nlinarith
      have h2u : beta < 2 * Real.pi := by nlinarith
      exact (Real.cos_eq_one_iff_of_lt_of_lt h2l h2u).mp hc1
    · intro h
      subst h
      rw [Real.cos_zero, div_one]
  · refine key 0 beta (by rw [abs_zero]; linarith) hb1 ?_
    rw [abs_zero]
    exact abs_nonneg beta

/-- Witness for `C10_monotone_in_angle` at the small config with angles
`0` and `1`. -/
theorem C10_monotone_in_angle_witness :
    (0.02 : ℝ) < 0.075 ∧ (0.075 : ℝ) < 0.20 ∧
    |(0 : ℝ)| < Real.pi / 2 ∧ |(1 : ℝ)| < Real.pi / 2 ∧
    (0.185 ≤ FishCalc.d_b_beta 0 ∧
     (FishCalc.d_b_beta 0 = 0.185 ↔ (0 : ℝ) = 0) ∧
     (|(0 : ℝ)| ≤ |(1 : ℝ)| →
       FishCalc.d_p_noSnell 0.02 0.075 0.20 0 ≤
         FishCalc.d_p_noSnell 0.02 0.075 0.20 1) ∧
     FishCalc.d_p_noSnell 0.02 0.075 0.20 0 ≤
       FishCalc.d_p_noSnell 0.02 0.075 0.20 0) := by
  have hpi := Real.pi_gt_three
  have h3 : |(0 : ℝ)| < Real.pi / 2 := by rw [abs_zero]; linarith
  have h4 : |(1 : ℝ)| < Real.pi / 2 := by rw [abs_one]; linarith
  exact ⟨by norm_num, by norm_num, h3, h4,
    C10_monotone_in_angle 0.02 0.075 0.20 0 1 (by norm_num) (by norm_num) h3 h4⟩
